import Mathlib

/-!
Shallow embedding of the needs-based insurance recommendation engine
(`app/recommendation/needs_engine.py`, `app/schemas/recommendation.py`,
`app/main.py`).  Python floats are modelled as rationals, Python ints as
`Int`/`Nat`, nullable fields as `Option`, and fallible code as `Except`.
-/

namespace NeedsEngine

/-! ### String helpers: Python's `needle in hay` substring test -/

/-- `leadsWith needle hay` is true when `needle` is an initial segment of `hay`. -/
def leadsWith : List Char → List Char → Bool
  | [], _ => true
  | _ :: _, [] => false
  | a :: as, b :: bs => a == b && leadsWith as bs

/-- `containsSub needle hay` is true when `needle` occurs contiguously in `hay`. -/
def containsSub (needle : List Char) : List Char → Bool
  | [] => leadsWith needle []
  | c :: t => leadsWith needle (c :: t) || containsSub needle t

/-- Python's `needle in hay` on strings. -/
def strContains (hay needle : String) : Bool :=
  containsSub needle.toList hay.toList

/-- Python's `s.lower()`: lowercase character by character. -/
def strToLower (s : String) : String :=
  String.mk (s.data.map Char.toLower)

/-! ### Python values and dicts (for the boundary layer of `main.py`) -/

/-- A Python runtime value, as far as the boundary layer needs. -/
inductive PyValue where
  | vInt (n : ℤ)
  | vNum (q : ℚ)
  | vBool (b : Bool)
  | vStr (s : String)
  | vNone
deriving DecidableEq

/-- A Python dict with string keys. -/
def PyDict := List (String × PyValue)

/-- Python's `d.get(k)`: `none` models the default `None` for a missing key. -/
def PyDict.get (d : PyDict) (k : String) : Option PyValue :=
  List.lookup k d

/-- Python truthiness of a value. -/
def PyValue.truthy : PyValue → Bool
  | .vInt n => n != 0
  | .vNum q => q != 0
  | .vBool b => b
  | .vStr s => s != ""
  | .vNone => false

/-- Truthiness of a `d.get(k)` result (a missing key is falsy). -/
def truthyOpt : Option PyValue → Bool
  | some v => v.truthy
  | none => false

/-- The string carried by a `d.get(k)` result, if any; models that only a
string value can pass the `in ["medium", "high"]` membership test. -/
def asStr : Option PyValue → Option String
  | some (.vStr s) => some s
  | _ => none

/-- Numeric coercion of a `d.get(k)` result, models `float(... or 0)` for the
value kinds the boundary layer can produce. -/
def asNum : Option PyValue → Option ℚ
  | some (.vNum q) => some q
  | some (.vInt n) => some (n : ℚ)
  | some (.vBool b) => some (if b then 1 else 0)
  | _ => none

/-! ### Profile: the fields `score_product` and `why_this_matters` read
from the profile dict, via `profile.get(...)`. -/

/-- The profile as consumed by the engine: `has_dependants` and `owns_car`
are used for truthiness, `employment_risk` is compared against
`["medium", "high"]`, `monthly_budget` goes through `float(... or 0)`. -/
structure Profile where
  has_dependants : Bool
  owns_car : Bool
  employment_risk : Option String
  monthly_budget : Option ℚ
deriving DecidableEq

/-- The engine's reads of the profile dict: `profile.get("has_dependants")`,
`profile.get("owns_car")`, `profile.get("employment_risk")`,
`profile.get("monthly_budget")`. -/
def readProfile (d : PyDict) : Profile :=
  { has_dependants := truthyOpt (d.get "has_dependants")
    owns_car := truthyOpt (d.get "owns_car")
    employment_risk := asStr (d.get "employment_risk")
    monthly_budget := asNum (d.get "monthly_budget") }

/-- `profile.get("employment_risk") in ["medium", "high"]`. -/
def Profile.riskMedHigh (p : Profile) : Bool :=
  p.employment_risk == some "medium" || p.employment_risk == some "high"

/-! ### Boundary layer: `RecommendationInput` from `app/schemas/recommendation.py` -/

/-- The request schema fields. -/
structure RecommendationInput where
  age : ℤ
  monthly_income : ℚ
  dependants_count : Bool
  owns_car : Bool
  employment_status : String
  owns_home : Bool

/-- The literal choices of `employment_status` in the schema. -/
def employmentStatuses : List String :=
  ["employed full-time", "employed part-time", "self-employed",
   "unemployed", "student", "retired"]

/-- The pydantic validation constraints: `age` in 18..100, `monthly_income > 0`,
`employment_status` one of the literal choices. -/
def RecommendationInput.valid (i : RecommendationInput) : Prop :=
  18 ≤ i.age ∧ i.age ≤ 100 ∧ 0 < i.monthly_income ∧
    i.employment_status ∈ employmentStatuses

instance (i : RecommendationInput) : Decidable i.valid := by
  unfold RecommendationInput.valid
  infer_instance

/-- `input.dict()`: the dict the endpoint passes to `recommend_policies`. -/
def RecommendationInput.toDict (i : RecommendationInput) : PyDict :=
  [("age", .vInt i.age),
   ("monthly_income", .vNum i.monthly_income),
   ("dependants_count", .vBool i.dependants_count),
   ("owns_car", .vBool i.owns_car),
   ("employment_status", .vStr i.employment_status),
   ("owns_home", .vBool i.owns_home)]

/-! ### Product: one row of the `insurance_products` select -/

/-- A candidate product; nullable columns are `Option`. -/
structure Product where
  product_name : String
  provider : String
  category : Option String
  description : String
  premium_amount : Option ℚ
  coverage_amount : Option ℚ
  frequency : String
  eligibility : Option String
deriving DecidableEq

/-! ### Scoring (`score_product`) -/

/-- CATEGORY RELEVANCE (40): the first-match `if`/`elif` chain. -/
def categoryBucket (category : String) (profile : Profile) : ℕ :=
  if category = "life" ∧ profile.has_dependants then 40
  else if category = "accident" ∧ profile.riskMedHigh then 35
  else if category = "car" ∧ profile.owns_car then 40
  else if category = "funeral" then 20
  else 0

/-- BUDGET FIT (25): `budget > 0` guard, then `premium <= budget` else
`premium <= budget * 1.3`. -/
def budgetBucket (premium budget : ℚ) : ℕ :=
  if 0 < budget then
    if premium ≤ budget then 25
    else if premium ≤ budget * (13 / 10) then 15
    else 0
  else 0

/-- VALUE FOR MONEY (20): `premium > 0` guard, then `coverage / premium`
against 1000 and 500. -/
def valueBucket (premium coverage : ℚ) : ℕ :=
  if 0 < premium then
    if 1000 ≤ coverage / premium then 20
    else if 500 ≤ coverage / premium then 10
    else 0
  else 0

/-- AGE ELIGIBILITY (15): `"age" in eligibility`. -/
def ageBucket (eligibility : String) : ℕ :=
  if strContains eligibility "age" then 15 else 0

/-- The sum of the four buckets, before the final `min(score, 100)`.
Null numeric fields default to 0, null text fields to `""`, exactly as
`product.get(...) or 0` / `or ""` and `profile.get("monthly_budget") or 0`. -/
def score_raw (product : Product) (profile : Profile) : ℕ :=
  categoryBucket (strToLower (product.category.getD "")) profile
    + budgetBucket (product.premium_amount.getD 0) (profile.monthly_budget.getD 0)
    + valueBucket (product.premium_amount.getD 0) (product.coverage_amount.getD 0)
    + ageBucket (strToLower (product.eligibility.getD ""))

/-- `score_product`: the bucket sum clamped by `min(score, 100)`. -/
def score_product (product : Product) (profile : Profile) : ℕ :=
  min (score_raw product profile) 100

/-- `priority_band`. -/
def priority_band (score : ℕ) : String :=
  if 80 ≤ score then "high"
  else if 60 ≤ score then "medium"
  else "low"

/-! ### Explanation engine (`why_this_matters`) -/

/-- First-occurrence deduplication, the order-preserving behaviour of
`list(dict.fromkeys(reasons))`. -/
def dedupFirstAux : List String → List String → List String
  | _, [] => []
  | seen, x :: xs =>
    if x ∈ seen then dedupFirstAux seen xs
    else x :: dedupFirstAux (x :: seen) xs

/-- `list(dict.fromkeys(l))`. -/
def dedupFirst (l : List String) : List String :=
  dedupFirstAux [] l

/-- The reasons accumulated by `why_this_matters`, in the fixed rule order:
category-specific cues, then the value cue, then the budget cue, then the
confidence cue. -/
def reasonsList (category : String) (score : ℕ) (profile : Profile)
    (coverage premium : ℚ) : List String :=
  let band := priority_band score
  let cat := strToLower category
  (if cat = "accident" then
      (if profile.riskMedHigh then
        ["Provides protection for higher daily risk exposure"] else [])
        ++ (if band = "high" then
          ["Highly relevant based on your activity level"] else [])
    else if cat = "life" then
      (if profile.has_dependants then
        ["Helps secure your dependants financial future"] else [])
        ++ (if band = "high" then
          ["Strong long-term financial protection"] else [])
    else if cat = "car" then
      (if profile.owns_car then
        ["Essential protection for vehicle ownership"] else [])
    else if cat = "funeral" then
      ["Helps reduce immediate financial burden on loved ones"]
        ++ (if premium = 0 then
          ["Includes coverage at no monthly cost"] else [])
    else [])
  ++ (if 0 < premium ∧ 800 ≤ coverage / premium then
       ["Offers strong coverage relative to the premium"] else [])
  ++ (if premium ≤ profile.monthly_budget.getD 0 then
       ["Fits comfortably within your monthly budget"] else [])
  ++ (if band = "high" then
       ["Strong overall match for your current needs"]
      else if band = "medium" then
       ["Reasonably aligned with your situation"]
      else [])

/-- `why_this_matters`: accumulate the reasons, deduplicate preserving first
occurrence, truncate to the first 2. -/
def why_this_matters (category : String) (score : ℕ) (profile : Profile)
    (coverage premium : ℚ) : List String :=
  (dedupFirst (reasonsList category score profile coverage premium)).take 2

/-- `best_for_text`: static audience tags keyed by lowercased category. -/
def best_for_text (category : String) : List String :=
  if strToLower category = "accident" then
    ["Young professionals", "Working professionals"]
  else if strToLower category = "life" then
    ["People with dependants", "Primary income earners"]
  else if strToLower category = "car" then
    ["Vehicle owners", "Daily commuters"]
  else if strToLower category = "funeral" then
    ["All households", "Budget-conscious families"]
  else []

/-! ### Ranking engine (`recommend_policies`) -/

/-- One entry of the `scored` list: `{"product": ..., "score": ...}`. -/
structure ScoredItem where
  product : Product
  score : ℕ
deriving DecidableEq

/-- One output card. -/
structure RecommendationItem where
  policy_type : String
  company : String
  confidence_score : ℕ
  priority_band : String
  match_label : String
  description : String
  best_for : List String
  why_this_matches_you : List String
  coverage_amount : ℚ
  coverage_currency : String
  premium_amount : ℚ
  premium_frequency : String
deriving DecidableEq

/-- `format_output`: note that it indexes `p["category"]`,
`p["coverage_amount"]`, `p["premium_amount"]` directly and applies
`.lower()` / `float(...)` to them, so a `None` in any of the three raises
(`AttributeError` / `TypeError`) instead of defaulting. -/
def format_output (profile : Profile) (item : ScoredItem) :
    Except String RecommendationItem :=
  match item.product.category, item.product.coverage_amount,
      item.product.premium_amount with
  | some cat, some cov, some prem =>
    Except.ok
      { policy_type := item.product.product_name
        company := item.product.provider
        confidence_score := item.score
        priority_band := priority_band item.score
        match_label := toString item.score ++ "% match"
        description := item.product.description
        best_for := best_for_text cat
        why_this_matches_you := why_this_matters cat item.score profile cov prem
        coverage_amount := cov
        coverage_currency := "ZAR"
        premium_amount := prem
        premium_frequency := item.product.frequency }
  | _, _, _ => Except.error "TypeError"

/-- The `scored` list: score every product in retrieval order and keep those
with `score > 0`. -/
def scoredOf (products : List Product) (profile : Profile) : List ScoredItem :=
  (products.map (fun p => { product := p, score := score_product p profile })).filter
    (fun item => decide (0 < item.score))

/-- The comparison `scored.sort(key=lambda x: x["score"], reverse=True)` sorts
by: `a` may precede `b` exactly when `b`'s score is at most `a`'s. -/
abbrev scoreRel (a b : ScoredItem) : Prop := b.score ≤ a.score

instance : IsTotal ScoredItem scoreRel := ⟨fun a b => le_total b.score a.score⟩

instance : IsTrans ScoredItem scoreRel := ⟨fun _ _ _ hab hbc => le_trans hbc hab⟩

/-- Python's `list.sort` is a stable sort; with `reverse=True` it still keeps
equal-score items in their original order.  A stable descending sort is
unique, so insertion sort with `scoreRel` models it exactly. -/
def sortScored (l : List ScoredItem) : List ScoredItem :=
  List.insertionSort scoreRel l

/-- Formatting of `top` and, when present, `second = scored[1]`; any further
entries are dropped.  A formatting exception aborts the whole call. -/
def formatTop (profile : Profile) :
    List ScoredItem → Except String (List RecommendationItem)
  | [] => Except.ok []
  | top :: rest =>
    match format_output profile top with
    | Except.error e => Except.error e
    | Except.ok t =>
      match rest with
      | [] => Except.ok [t]
      | second :: _ =>
        match format_output profile second with
        | Except.error e => Except.error e
        | Except.ok s => Except.ok [t, s]

/-- `recommend_policies`, parametrised by the product list that
`fetch_active_products()` returns (an external read). -/
def recommend_policies (products : List Product) (profile : Profile) :
    Except String (List RecommendationItem) :=
  formatTop profile (sortScored (scoredOf products profile))

/-- The `/recommend` endpoint body: `recommend_policies(input.dict())`. -/
def recommend (products : List Product) (i : RecommendationInput) :
    Except String (List RecommendationItem) :=
  recommend_policies products (readProfile i.toDict)

/-! ### Concrete inputs used by the theorems -/

/-- A request that passes every pydantic constraint of the boundary schema. -/
def inputC1 : RecommendationInput :=
  { age := 30, monthly_income := 500, dependants_count := true,
    owns_car := false, employment_status := "employed full-time",
    owns_home := false }

/-- A life product that a budget of 500 and dependants should favour. -/
def prodC1 : Product :=
  { product_name := "LifeCo", provider := "P", category := some "life",
    description := "", premium_amount := some 400, coverage_amount := none,
    frequency := "monthly", eligibility := none }

/-- A funeral product whose numeric columns are null. -/
def prodC2 : Product :=
  { product_name := "FuneralCare", provider := "Acme",
    category := some "funeral", description := "", premium_amount := none,
    coverage_amount := none, frequency := "monthly", eligibility := none }

/-- `prodC2` with the nulls replaced by explicit zeros. -/
def prodC2zero : Product :=
  { prodC2 with premium_amount := some 0, coverage_amount := some 0 }

/-- A plain engine-level profile with a budget of 500. -/
def profC2 : Profile :=
  { has_dependants := false, owns_car := false,
    employment_risk := none, monthly_budget := some 500 }

/-- A funeral product with some coverage but a null premium column. -/
def prodC3 : Product :=
  { product_name := "FuneralPlus", provider := "Beta",
    category := some "funeral", description := "", premium_amount := none,
    coverage_amount := some 5000, frequency := "annual",
    eligibility := some "Age 21+" }

/-- The worked-example profile of the spec. -/
def profC9 : Profile :=
  { has_dependants := true, owns_car := false,
    employment_risk := some "low", monthly_budget := some 500 }

/-- Worked-example product A. -/
def prodA : Product :=
  { product_name := "A", provider := "ProvA", category := some "life",
    description := "Life cover", premium_amount := some 400,
    coverage_amount := some 500000, frequency := "monthly",
    eligibility := some "age 18-65" }

/-- Worked-example product B. -/
def prodB : Product :=
  { product_name := "B", provider := "ProvB", category := some "car",
    description := "Car cover", premium_amount := some 100,
    coverage_amount := some 50000, frequency := "monthly",
    eligibility := some "" }

/-! ### Helper lemmas -/

lemma not_mem_seen_of_mem_dedupFirstAux (l : List String) :
    ∀ seen x, x ∈ dedupFirstAux seen l → x ∉ seen := by
  induction l with
  | nil => intro seen x hx; simp [dedupFirstAux] at hx
  | cons y ys ih =>
    intro seen x hx
    by_cases hy : y ∈ seen
    · rw [dedupFirstAux, if_pos hy] at hx
      exact ih seen x hx
    · rw [dedupFirstAux, if_neg hy] at hx
      rcases List.mem_cons.mp hx with rfl | hx'
      · exact hy
      · intro hxseen
        exact ih (y :: seen) x hx' (List.mem_cons_of_mem y hxseen)

lemma nodup_dedupFirstAux (l : List String) :
    ∀ seen, (dedupFirstAux seen l).Nodup := by
  induction l with
  | nil => intro seen; simp [dedupFirstAux]
  | cons y ys ih =>
    intro seen
    by_cases hy : y ∈ seen
    · rw [dedupFirstAux, if_pos hy]; exact ih seen
    · rw [dedupFirstAux, if_neg hy]
      refine List.nodup_cons.mpr ⟨?_, ih (y :: seen)⟩
      intro hmem
      exact not_mem_seen_of_mem_dedupFirstAux ys (y :: seen) y hmem
        (List.mem_cons_self y seen)

lemma nodup_dedupFirst (l : List String) : (dedupFirst l).Nodup :=
  nodup_dedupFirstAux l []

lemma mem_scoredOf {products : List Product} {profile : Profile}
    {item : ScoredItem} (h : item ∈ scoredOf products profile) :
    item.product ∈ products ∧ 0 < item.score := by
  unfold scoredOf at h
  obtain ⟨hmem, hpos⟩ := List.mem_filter.mp h
  obtain ⟨p, hp, rfl⟩ := List.mem_map.mp hmem
  exact ⟨hp, of_decide_eq_true hpos⟩

lemma format_output_ok (profile : Profile) {item : ScoredItem}
    (hc : item.product.category.isSome)
    (hv : item.product.coverage_amount.isSome)
    (hp : item.product.premium_amount.isSome) :
    ∃ out, format_output profile item = Except.ok out ∧
      out.confidence_score = item.score := by
  unfold format_output
  obtain ⟨c, hc'⟩ := Option.isSome_iff_exists.mp hc
  obtain ⟨v, hv'⟩ := Option.isSome_iff_exists.mp hv
  obtain ⟨pr, hp'⟩ := Option.isSome_iff_exists.mp hp
  rw [hc', hv', hp']
  exact ⟨_, rfl, rfl⟩

lemma formatTop_shape (profile : Profile) (l : List ScoredItem)
    (h : ∀ item ∈ l, item.product.category.isSome ∧
        item.product.coverage_amount.isSome ∧
        item.product.premium_amount.isSome) :
    ∃ out, formatTop profile l = Except.ok out ∧
      out.map RecommendationItem.confidence_score =
        (l.take 2).map ScoredItem.score := by
  match l with
  | [] => exact ⟨[], rfl, rfl⟩
  | [top] =>
    obtain ⟨hc, hv, hp⟩ := h top (by simp)
    obtain ⟨t, ht, htc⟩ := format_output_ok profile hc hv hp
    refine ⟨[t], ?_, ?_⟩
    · simp [formatTop, ht]
    · simp [htc]
  | top :: second :: rest =>
    obtain ⟨hc, hv, hp⟩ := h top (by simp)
    obtain ⟨hc2, hv2, hp2⟩ := h second (by simp)
    obtain ⟨t, ht, htc⟩ := format_output_ok profile hc hv hp
    obtain ⟨s2, hs2, hs2c⟩ := format_output_ok profile hc2 hv2 hp2
    refine ⟨[t, s2], ?_, ?_⟩
    · simp [formatTop, ht, hs2]
    · simp [htc, hs2c]

lemma filter_score_orderedInsert (s : ℕ) (a : ScoredItem)
    (l : List ScoredItem) :
    (List.orderedInsert scoreRel a l).filter (fun x => x.score == s) =
      if a.score = s then a :: l.filter (fun x => x.score == s)
      else l.filter (fun x => x.score == s) := by
  induction l with
  | nil =>
    by_cases has : a.score = s <;> simp [List.orderedInsert, has]
  | cons b l ih =>
    by_cases hab : scoreRel a b
    · have hrw : List.orderedInsert scoreRel a (b :: l) = a :: b :: l := by
        simp [List.orderedInsert, hab]
      rw [hrw]
      by_cases has : a.score = s <;> simp [List.filter_cons, has]
    · have hrw : List.orderedInsert scoreRel a (b :: l) =
          b :: List.orderedInsert scoreRel a l := by
        simp [List.orderedInsert, hab]
      have haltb : a.score < b.score := not_le.mp hab
      rw [hrw]
      by_cases hbs : b.score = s <;> by_cases has : a.score = s
      · exact absurd (has.trans hbs.symm) (Nat.ne_of_lt haltb)
      · simp [List.filter_cons, hbs, has, ih]
      · simp [List.filter_cons, hbs, has, ih]
      · simp [List.filter_cons, hbs, has, ih]

lemma filter_score_sortScored (s : ℕ) (l : List ScoredItem) :
    (sortScored l).filter (fun x => x.score == s) =
      l.filter (fun x => x.score == s) := by
  induction l with
  | nil => rfl
  | cons a l ih =>
    have h1 : sortScored (a :: l) =
        List.orderedInsert scoreRel a (sortScored l) := rfl
    rw [h1, filter_score_orderedInsert]
    by_cases has : a.score = s <;> simp [has, ih, List.filter_cons]

/-! ### Claim theorems -/

/-- C1: the claim says the validated request carries the monthly-budget,
has-dependants, and employment-risk fields that `score_product` reads.  It
does not: a fully valid request dict has keys `monthly_income`,
`dependants_count`, `employment_status` instead, so the engine reads `None`
defaults — the dependants/budget signal is lost and a life product with a
fitting premium scores 0. -/
theorem validated_input_lacks_engine_fields :
    inputC1.valid ∧
    PyDict.get inputC1.toDict "monthly_budget" = none ∧
    PyDict.get inputC1.toDict "has_dependants" = none ∧
    PyDict.get inputC1.toDict "employment_risk" = none ∧
    readProfile inputC1.toDict =
      { has_dependants := false, owns_car := false,
        employment_risk := none, monthly_budget := none } ∧
    score_product prodC1 (readProfile inputC1.toDict) = 0 := by
  refine ⟨by decide, rfl, rfl, rfl, rfl, ?_⟩
  have hv : valueBucket 400 0 = 0 := by norm_num [valueBucket]
  have hraw : score_raw prodC1 (readProfile inputC1.toDict) = 0 := by
    unfold score_raw
    rw [show prodC1.premium_amount.getD 0 = 400 from rfl,
      show prodC1.coverage_amount.getD 0 = (0 : ℚ) from rfl, hv]
    decide
  unfold score_product
  rw [hraw]
  rfl

/-- C2: scoring does treat null premium/coverage as 0 (the funeral product
scores 45 with or without explicit zeros), but `format_output` indexes the
raw columns and `float(None)` raises, so a retained product with null
numeric fields makes the whole pipeline error instead of being tolerated. -/
theorem null_numeric_fields_crash_formatting :
    score_product prodC2 profC2 = 45 ∧
    score_product prodC2zero profC2 = score_product prodC2 profC2 ∧
    recommend_policies [prodC2] profC2 = Except.error "TypeError" :=
  ⟨rfl, rfl, rfl⟩

/-- C3 (counterexample): as stated, the claim is false — for a retained
product whose coverage column is null, `recommend_policies` raises instead
of returning a recommendation list. -/
theorem recommend_policies_error_on_null_column :
    recommend_policies [prodC3] profC2 = Except.error "TypeError" := rfl

/-- C3 (amended): whenever every product's category, coverage and premium
columns are non-null, `recommend_policies` returns a list of at most 2
items, sorted descending by confidence score, containing no zero-score
product, and returns the empty list when nothing scores above 0. -/
theorem recommend_policies_shape (products : List Product) (profile : Profile)
    (h : ∀ p ∈ products, p.category.isSome ∧ p.coverage_amount.isSome ∧
        p.premium_amount.isSome) :
    ∃ l, recommend_policies products profile = Except.ok l ∧ l.length ≤ 2 ∧
      List.Sorted (fun a b => b ≤ a)
        (l.map RecommendationItem.confidence_score) ∧
      (∀ item ∈ l, 0 < item.confidence_score) ∧
      (scoredOf products profile = [] → l = []) := by
  have hmem : ∀ x ∈ sortScored (scoredOf products profile),
      x ∈ scoredOf products profile := fun x hx =>
    ((List.perm_insertionSort scoreRel _).mem_iff).mp hx
  have hfields : ∀ item ∈ sortScored (scoredOf products profile),
      item.product.category.isSome ∧ item.product.coverage_amount.isSome ∧
        item.product.premium_amount.isSome := fun item hi =>
    h item.product (mem_scoredOf (hmem item hi)).1
  obtain ⟨out, hout, hmap⟩ :=
    formatTop_shape profile (sortScored (scoredOf products profile)) hfields
  refine ⟨out, hout, ?_, ?_, ?_, ?_⟩
  · have hlen : out.length =
        ((sortScored (scoredOf products profile)).take 2).length := by
      have := congrArg List.length hmap
      simpa using this
    rw [hlen, List.length_take]
    omega
  · rw [hmap]
    have hs : List.Sorted scoreRel (sortScored (scoredOf products profile)) :=
      List.sorted_insertionSort scoreRel _
    have hs2 : List.Sorted scoreRel
        ((sortScored (scoredOf products profile)).take 2) :=
      hs.sublist (List.take_sublist 2 _)
    exact List.pairwise_map.mpr hs2
  · intro item hitem
    have hconf : item.confidence_score ∈
        out.map RecommendationItem.confidence_score :=
      List.mem_map_of_mem _ hitem
    rw [hmap] at hconf
    obtain ⟨x, hx, hxc⟩ := List.mem_map.mp hconf
    have hxl : x ∈ sortScored (scoredOf products profile) :=
      (List.take_sublist 2 _).subset hx
    have hxpos := (mem_scoredOf (hmem x hxl)).2
    omega
  · intro hempty
    have hnil : sortScored (scoredOf products profile) = [] := by
      rw [hempty]; rfl
    rw [hnil] at hmap
    simp only [List.take_nil, List.map_nil] at hmap
    exact List.map_eq_nil_iff.mp hmap

/-- C3 (witness): the amended theorem applied to the worked-example life
product alone, whose columns are all non-null. -/
theorem recommend_policies_shape_witness :
    ∃ l, recommend_policies [prodA] profC9 = Except.ok l ∧ l.length ≤ 2 ∧
      List.Sorted (fun a b => b ≤ a)
        (l.map RecommendationItem.confidence_score) ∧
      (∀ item ∈ l, 0 < item.confidence_score) ∧
      (scoredOf [prodA] profC9 = [] → l = []) :=
  recommend_policies_shape [prodA] profC9 (by decide)

/-- C4: for every product and profile, `score_product` returns an integer in
the closed interval `[0, 100]`; as a Lean function of its two arguments it
is deterministic and side-effect free by construction. -/
theorem score_product_bounds (product : Product) (profile : Profile) :
    0 ≤ score_product product profile ∧ score_product product profile ≤ 100 :=
  ⟨Nat.zero_le _, min_le_right _ _⟩

/-- C5: the budget-fit bucket adds 25 when `premium ≤ budget`, 15 when
`budget < premium ≤ budget * 1.3` (boundary inclusive), 0 when
`premium > budget * 1.3`, and 0 when the budget is 0 (a missing budget
reaches the bucket as 0 via `getD 0`). -/
theorem budgetBucket_boundaries (premium budget : ℚ) :
    (0 < budget →
      ((premium ≤ budget → budgetBucket premium budget = 25) ∧
       (budget < premium → premium ≤ budget * (13 / 10) →
         budgetBucket premium budget = 15) ∧
       (budget * (13 / 10) < premium → budgetBucket premium budget = 0))) ∧
    (budget = 0 → budgetBucket premium budget = 0) := by
  constructor
  · intro hb
    refine ⟨fun hle => ?_, fun hgt hle => ?_, fun hgt => ?_⟩
    · simp [budgetBucket, hb, hle]
    · simp [budgetBucket, hb, hle, not_le.mpr hgt]
    · have h1 : ¬ premium ≤ budget := by
        intro hle2
        nlinarith
      have h2 : ¬ premium ≤ budget * (13 / 10) := not_le.mpr hgt
      simp [budgetBucket, hb, h1, h2]
  · intro hb0
    simp [budgetBucket, hb0]

/-- C5 (witness): the three boundary cases at budget 500 and the zero-budget
case, discharged through the theorem. -/
theorem budgetBucket_boundaries_witness :
    budgetBucket 400 500 = 25 ∧ budgetBucket 650 500 = 15 ∧
    budgetBucket 651 500 = 0 ∧ budgetBucket 400 0 = 0 :=
  ⟨((budgetBucket_boundaries 400 500).1 (by norm_num)).1 (by norm_num),
   (((budgetBucket_boundaries 650 500).1 (by norm_num)).2).1 (by norm_num)
     (by norm_num),
   (((budgetBucket_boundaries 651 500).1 (by norm_num)).2).2 (by norm_num),
   (budgetBucket_boundaries 400 0).2 rfl⟩

/-- C6: the explanation list has length at most 2, contains no duplicates,
and equals the first 2 entries of the first-occurrence deduplication of the
reasons accumulated in the fixed rule order. -/
theorem why_this_matters_spec (category : String) (score : ℕ)
    (profile : Profile) (coverage premium : ℚ) :
    (why_this_matters category score profile coverage premium).length ≤ 2 ∧
    (why_this_matters category score profile coverage premium).Nodup ∧
    why_this_matters category score profile coverage premium =
      (dedupFirst (reasonsList category score profile coverage premium)).take 2 := by
  refine ⟨?_, ?_, rfl⟩
  · exact List.length_take_le 2 _
  · exact (nodup_dedupFirst _).sublist (List.take_sublist 2 _)

/-- C7: every integer score from 0 to 100 maps to exactly one band:
"high" iff `80 ≤ score`, "medium" iff `60 ≤ score < 80`, "low" iff
`score < 60` — no overlap, no gaps. -/
theorem priority_band_partition (s : ℕ) (hs : s ≤ 100) :
    (priority_band s = "high" ↔ 80 ≤ s) ∧
    (priority_band s = "medium" ↔ 60 ≤ s ∧ s < 80) ∧
    (priority_band s = "low" ↔ s < 60) := by
  unfold priority_band
  split_ifs with h1 h2
  · exact ⟨iff_of_true rfl h1, iff_of_false (by decide) (by omega),
      iff_of_false (by decide) (by omega)⟩
  · exact ⟨iff_of_false (by decide) (by omega), iff_of_true rfl (by omega),
      iff_of_false (by decide) (by omega)⟩
  · exact ⟨iff_of_false (by decide) (by omega),
      iff_of_false (by decide) (by omega), iff_of_true rfl (by omega)⟩

/-- C7 (witness): the partition at the concrete score 70. -/
theorem priority_band_partition_witness :
    (priority_band 70 = "high" ↔ 80 ≤ 70) ∧
    (priority_band 70 = "medium" ↔ 60 ≤ 70 ∧ 70 < 80) ∧
    (priority_band 70 = "low" ↔ 70 < 60) :=
  priority_band_partition 70 (by decide)

/-- C8: the descending sort inside `recommend_policies` is stable: the list
is sorted by score descending, and for any score value the equal-score
items appear in exactly their original retrieval order (the filtered
subsequence is unchanged by the sort). -/
theorem sortScored_stable_ties (products : List Product) (profile : Profile)
    (s : ℕ) :
    List.Sorted scoreRel (sortScored (scoredOf products profile)) ∧
    (sortScored (scoredOf products profile)).filter
        (fun item => item.score == s) =
      (scoredOf products profile).filter (fun item => item.score == s) :=
  ⟨List.sorted_insertionSort scoreRel _, filter_score_sortScored s _⟩

/-- C9: the worked example — product A scores 100 with band "high",
product B scores 35 with band "low", and A is ranked before B by the
pipeline. -/
theorem worked_example_scores :
    score_product prodA profC9 = 100 ∧
    priority_band (score_product prodA profC9) = "high" ∧
    score_product prodB profC9 = 35 ∧
    priority_band (score_product prodB profC9) = "low" ∧
    (sortScored (scoredOf [prodA, prodB] profC9)).map
      (fun item => item.product.product_name) = ["A", "B"] ∧
    (recommend_policies [prodA, prodB] profC9).toOption.map
      (fun l => l.map RecommendationItem.policy_type) = some ["A", "B"] := by
  have hvA : valueBucket 400 500000 = 20 := by norm_num [valueBucket]
  have hvB : valueBucket 100 50000 = 10 := by norm_num [valueBucket]
  have hA : score_product prodA profC9 = 100 := by
    have hraw : score_raw prodA profC9 = 100 := by
      unfold score_raw
      rw [show prodA.premium_amount.getD 0 = 400 from rfl,
        show prodA.coverage_amount.getD 0 = (500000 : ℚ) from rfl, hvA]
      decide
    unfold score_product
    rw [hraw]
    omega
  have hB : score_product prodB profC9 = 35 := by
    have hraw : score_raw prodB profC9 = 35 := by
      unfold score_raw
      rw [show prodB.premium_amount.getD 0 = 100 from rfl,
        show prodB.coverage_amount.getD 0 = (50000 : ℚ) from rfl, hvB]
      decide
    unfold score_product
    rw [hraw]
    omega
  have hsc : scoredOf [prodA, prodB] profC9 =
      [{ product := prodA, score := 100 }, { product := prodB, score := 35 }] := by
    unfold scoredOf
    simp only [List.map_cons, List.map_nil]
    rw [hA, hB]
    rfl
  have hrp : recommend_policies [prodA, prodB] profC9 =
      formatTop profC9 (sortScored
        [{ product := prodA, score := 100 }, { product := prodB, score := 35 }]) := by
    unfold recommend_policies
    rw [hsc]
  exact ⟨hA, by rw [hA]; rfl, hB, by rw [hB]; rfl,
    by rw [hsc]; rfl, by rw [hrp]; rfl⟩

/-- C10: the four buckets sum to at most 100 (their maxima are
40 + 25 + 20 + 15), so the final `min(score, 100)` clamp is the identity
and the clamped and unclamped scores agree everywhere. -/
theorem score_clamp_is_identity (product : Product) (profile : Profile) :
    score_raw product profile ≤ 100 ∧
    score_product product profile = score_raw product profile := by
  have h1 : categoryBucket (strToLower (product.category.getD "")) profile ≤ 40 := by
    unfold categoryBucket; split_ifs <;> omega
  have h2 : budgetBucket (product.premium_amount.getD 0)
      (profile.monthly_budget.getD 0) ≤ 25 := by
    unfold budgetBucket; split_ifs <;> omega
  have h3 : valueBucket (product.premium_amount.getD 0)
      (product.coverage_amount.getD 0) ≤ 20 := by
    unfold valueBucket; split_ifs <;> omega
  have h4 : ageBucket (strToLower (product.eligibility.getD "")) ≤ 15 := by
    unfold ageBucket; split_ifs <;> omega
  have hsum : score_raw product profile ≤ 100 := by
    unfold score_raw; omega
  exact ⟨hsum, min_eq_left hsum⟩

end NeedsEngine
